import Mathlib

/-!
Shallow embedding of the pathfinder RPC core:
- `crates/rpc/src/v02/method/get_class_at.rs` (class lookup pipeline with
  pending overlay),
- `crates/pathfinder/src/rpc/v02/method/add_declare_transaction.rs`
  (declare-transaction submission pipeline with sequencer error mapping).

External collaborators (storage connection/transaction, sequencer gateway
client, pending-data provider, class-definition parser) are modelled as
function-valued environment fields; the control flow of the two method
bodies is translated directly from the source.  Machine-level felts,
hashes and addresses are opaque fixed-width values in the source and are
modelled as `Nat`.
-/

namespace Pathfinder

/-- Field element: canonical opaque representation for hashes, addresses
and amounts. -/
abbrev Felt := Nat

abbrev ContractAddress := Felt
abbrev ClassHash := Felt
abbrev TransactionHash := Felt
abbrev TransactionVersion := Felt
abbrev Fee := Felt
abbrev TransactionNonce := Felt

/-- Raw class-definition bytes as stored in the database. -/
abbrev DefinitionBytes := List Nat

/-- Parsed contract class (`crate::v02::types::ContractClass`): opaque to
this core, produced by `ContractClass::from_definition_bytes`. -/
structure ContractClass where
  data : Nat
  deriving DecidableEq

/-- `pathfinder_common::BlockId`: the abstract block identifier of a
request. -/
inductive BlockId
  | Latest
  | Pending
  | Hash (h : Felt)
  | Number (n : Nat)
  deriving DecidableEq

/-- `pathfinder_storage::BlockId`: the storage-level block reference;
pending has no committed coordinates, so it has no variant here. -/
inductive StorageBlockId
  | Latest
  | Hash (h : Felt)
  | Number (n : Nat)
  deriving DecidableEq

/-- The fallible `TryFrom<BlockId>` conversion into the storage variant:
it fails exactly on `Pending`. -/
def StorageBlockId.tryFrom : BlockId → Option StorageBlockId
  | BlockId.Latest => some StorageBlockId.Latest
  | BlockId.Pending => none
  | BlockId.Hash h => some (StorageBlockId.Hash h)
  | BlockId.Number n => some (StorageBlockId.Number n)

/-- The block-id resolution performed at the top of `get_class_at`:
`Pending` maps to `Latest`, every other variant goes through the
`try_into` conversion (whose failure branch is handled by the `Pending`
arm first and is therefore unreachable). -/
def resolveBlockId : BlockId → StorageBlockId
  | BlockId.Pending => StorageBlockId.Latest
  | BlockId.Latest => StorageBlockId.Latest
  | BlockId.Hash h => StorageBlockId.Hash h
  | BlockId.Number n => StorageBlockId.Number n

/-- One `{address, class_hash}` entry of a pending state diff's
`deployed_contracts` sequence. -/
structure DeployedContract where
  address : ContractAddress
  class_hash : ClassHash
  deriving DecidableEq

/-- The portion of a pending state update consulted by `get_class_at`. -/
structure StateDiff where
  deployed_contracts : List DeployedContract
  deriving DecidableEq

structure StateUpdate where
  state_diff : StateDiff
  deriving DecidableEq

/-- `starknet_gateway_types::pending::PendingData`: `state_update` yields
the current pending snapshot if one exists. -/
structure PendingData where
  state_update : Option StateUpdate
  deriving DecidableEq

/-- The `find_map` scan over `deployed_contracts`: first entry whose
address matches wins, in insertion order. -/
def findDeployedClassHash (contracts : List DeployedContract)
    (address : ContractAddress) : Option ClassHash :=
  match contracts with
  | [] => none
  | c :: rest =>
    if c.address = address then some c.class_hash
    else findDeployedClassHash rest address

/-- `get_pending_class_hash`: returns the class hash of the given address
if any is defined in the pending data. -/
def get_pending_class_hash (pending : Option PendingData)
    (address : ContractAddress) : Option ClassHash :=
  match pending with
  | none => none
  | some p =>
    match p.state_update with
    | none => none
    | some state_update =>
      findDeployedClassHash state_update.state_diff.deployed_contracts address

/-- `GetClassAtError`, generated by
`generate_rpc_error_subset!(GetClassAtError: BlockNotFound, ContractNotFound)`:
the declared subset plus the implicit `Internal` carrying an opaque
diagnostic cause. -/
inductive GetClassAtError
  | BlockNotFound
  | ContractNotFound
  | Internal (cause : String)
  deriving DecidableEq

structure GetClassAtInput where
  block_id : BlockId
  contract_address : ContractAddress
  deriving DecidableEq

/-- Environment of external collaborators used by `get_class_at`: the
storage connection and transactional queries, the definition parser, and
the pending-data provider.  Each storage query may fail with a low-level
cause (modelled as a `String`). -/
structure StorageEnv where
  connection : Except String Unit
  block_exists : StorageBlockId → Except String Bool
  contract_class_hash :
    StorageBlockId → ContractAddress → Except String (Option ClassHash)
  class_definition : ClassHash → Except String (Option DefinitionBytes)
  from_definition_bytes : DefinitionBytes → Except String ContractClass
  pending_data : Option PendingData

/-- The `pending_class_hash` computation of `get_class_at` (lines 27-31):
the overlay is consulted exactly when the original identifier was
`Pending`. -/
def pendingClassHashFor (env : StorageEnv) (input : GetClassAtInput) :
    Option ClassHash :=
  if input.block_id = BlockId.Pending then
    get_pending_class_hash env.pending_data input.contract_address
  else none

/-- Tail of the lookup pipeline (lines 54-60): fetch the definition bytes
for a class hash and parse them.  A present hash with absent bytes is an
`Internal` data-integrity failure. -/
def fetchAndParse (cdef : ClassHash → Except String (Option DefinitionBytes))
    (p : DefinitionBytes → Except String ContractClass)
    (class_hash : ClassHash) : Except GetClassAtError ContractClass :=
  match cdef class_hash with
  | Except.error e =>
    Except.error (GetClassAtError.Internal ("Fetching class definition: " ++ e))
  | Except.ok none =>
    Except.error (GetClassAtError.Internal "Class definition missing from database")
  | Except.ok (some definition) =>
    match p definition with
    | Except.error e =>
      Except.error (GetClassAtError.Internal ("Parsing class definition: " ++ e))
    | Except.ok cls => Except.ok cls

/-- `get_class_at`: resolve the block id, consult the pending overlay for
`Pending` requests, then (inside one storage transaction) check the block
exists, resolve the class hash (overlay hit short-circuits the committed
lookup), and fetch/parse the definition. -/
def get_class_at (env : StorageEnv) (input : GetClassAtInput) :
    Except GetClassAtError ContractClass :=
  match env.connection with
  | Except.error e =>
    Except.error (GetClassAtError.Internal ("Opening database connection: " ++ e))
  | Except.ok _ =>
    match env.block_exists (resolveBlockId input.block_id) with
    | Except.error e => Except.error (GetClassAtError.Internal e)
    | Except.ok false => Except.error GetClassAtError.BlockNotFound
    | Except.ok true =>
      match pendingClassHashFor env input with
      | some class_hash =>
        fetchAndParse env.class_definition env.from_definition_bytes class_hash
      | none =>
        match env.contract_class_hash (resolveBlockId input.block_id)
            input.contract_address with
        | Except.error e =>
          Except.error
            (GetClassAtError.Internal ("Querying contract's class hash: " ++ e))
        | Except.ok none => Except.error GetClassAtError.ContractNotFound
        | Except.ok (some class_hash) =>
          fetchAndParse env.class_definition env.from_definition_bytes class_hash

/-- Upstream starknet error codes: the one code distinguished by the
declare pipeline plus the remaining (unrecognized-here) codes. -/
inductive StarknetErrorCode
  | InvalidProgram
  | otherCode (n : Nat)
  deriving DecidableEq

/-- The `{code, message}` case of the sequencer error union. -/
structure StarknetError where
  code : StarknetErrorCode
  message : String
  deriving DecidableEq

/-- `SequencerError`: tagged union of upstream failure causes — the
tagged starknet-error case, transport failure, malformed upstream
response. -/
inductive SequencerError
  | starknetError (e : StarknetError)
  | transportError (msg : String)
  | invalidStarknetErrorVariant
  deriving DecidableEq

/-- Cause preserved inside `Internal` for the declare pipeline: either an
upstream sequencer error converted via `e.into()`, or a local
(conversion) error. -/
inductive DeclareInternalCause
  | sequencer (e : SequencerError)
  | localError (msg : String)
  deriving DecidableEq

/-- `AddDeclareTransactionError`, generated by
`generate_rpc_error_subset!(AddDeclareTransactionError: InvalidContractClass)`:
the declared subset plus the implicit `Internal`. -/
inductive AddDeclareTransactionError
  | InvalidContractClass
  | Internal (cause : DeclareInternalCause)
  deriving DecidableEq

/-- `From<SequencerError> for AddDeclareTransactionError` (lines 10-20):
the tagged starknet-error case with code `InvalidProgram` maps to
`InvalidContractClass`; everything else maps to `Internal` carrying the
original cause. -/
def AddDeclareTransactionError.fromSequencerError :
    SequencerError → AddDeclareTransactionError
  | SequencerError.starknetError e =>
    if e.code = StarknetErrorCode.InvalidProgram then
      AddDeclareTransactionError.InvalidContractClass
    else
      AddDeclareTransactionError.Internal
        (DeclareInternalCause.sequencer (SequencerError.starknetError e))
  | e =>
    AddDeclareTransactionError.Internal (DeclareInternalCause.sequencer e)

/-- The sequencer's contract-definition schema: opaque result of the
`TryInto<ContractDefinition>` conversion. -/
structure ContractDefinition where
  data : Nat
  deriving DecidableEq

structure BroadcastedDeclareTransaction where
  version : TransactionVersion
  max_fee : Fee
  signature : List Felt
  nonce : TransactionNonce
  contract_class : ContractClass
  sender_address : ContractAddress
  deriving DecidableEq

/-- The tagged transaction payload: this core specifies the Declare
variant. -/
inductive Transaction
  | Declare (tx : BroadcastedDeclareTransaction)
  deriving DecidableEq

structure AddDeclareTransactionInput where
  declare_transaction : Transaction
  deriving DecidableEq

structure AddDeclareTransactionOutput where
  transaction_hash : TransactionHash
  class_hash : ClassHash
  deriving DecidableEq

/-- Argument record of the gateway client's `add_declare_transaction`
call.  Modelled from the spec: the gateway client itself is an external
collaborator (`sequencer::ClientApi`), its submission call takes version,
fee bound, signature, nonce, converted contract definition, sender
address, and a reserved slot for an optional compiled-class hash. -/
structure AddDeclareArgs where
  version : TransactionVersion
  max_fee : Fee
  signature : List Felt
  nonce : TransactionNonce
  contract_definition : ContractDefinition
  sender_address : ContractAddress
  compiled_class_hash : Option ClassHash
  deriving DecidableEq

/-- The gateway's successful response to a declare submission. -/
structure AddDeclareResponse where
  transaction_hash : TransactionHash
  class_hash : ClassHash
  deriving DecidableEq

/-- Environment of external collaborators used by
`add_declare_transaction`: the `TryInto<ContractDefinition>` conversion
and the sequencer gateway client. -/
structure SequencerEnv where
  convert : ContractClass → Except String ContractDefinition
  submit : AddDeclareArgs → Except SequencerError AddDeclareResponse

/-- `add_declare_transaction`: convert the contract class into the
sequencer schema (failure is a local `Internal` with context), forward
the transaction fields with `none` in the compiled-class-hash slot, map a
gateway error through `fromSequencerError`, and return the response's
transaction hash and class hash. -/
def add_declare_transaction (env : SequencerEnv)
    (input : AddDeclareTransactionInput) :
    Except AddDeclareTransactionError AddDeclareTransactionOutput :=
  match input.declare_transaction with
  | Transaction.Declare tx =>
    match env.convert tx.contract_class with
    | Except.error e =>
      Except.error
        (AddDeclareTransactionError.Internal
          (DeclareInternalCause.localError
            ("Failed to convert contract definition: " ++ e)))
    | Except.ok contract_definition =>
      match env.submit
          ⟨tx.version, tx.max_fee, tx.signature, tx.nonce,
           contract_definition, tx.sender_address, none⟩ with
      | Except.error e =>
        Except.error (AddDeclareTransactionError.fromSequencerError e)
      | Except.ok response =>
        Except.ok ⟨response.transaction_hash, response.class_hash⟩

/-- C8: Block-identifier resolution is total and never fails: `Pending`
maps to the storage-level `Latest`, and on every other variant the
fallible `try_into` conversion succeeds and agrees with the resolution,
so the failure branch of the conversion is unreachable once `Pending`
has been handled. -/
theorem resolveBlockId_total_agrees (b : BlockId) :
    resolveBlockId BlockId.Pending = StorageBlockId.Latest ∧
    (b ≠ BlockId.Pending →
      StorageBlockId.tryFrom b = some (resolveBlockId b)) := by
  refine ⟨rfl, ?_⟩
  intro hb
  cases b with
  | Latest => rfl
  | Pending => exact absurd rfl hb
  | Hash h => rfl
  | Number n => rfl

/-- Witness for C8 at the concrete identifier `Number 7`. -/
theorem resolveBlockId_total_agrees_witness :
    StorageBlockId.tryFrom (BlockId.Number 7) =
      some (resolveBlockId (BlockId.Number 7)) :=
  (resolveBlockId_total_agrees (BlockId.Number 7)).2 (by decide)

/-! Concrete collaborator fixtures used to evaluate the pipelines at
specific inputs. -/

def beTrue : StorageBlockId → Except String Bool := fun _ => Except.ok true

def beFalse : StorageBlockId → Except String Bool := fun _ => Except.ok false

def cchSome : StorageBlockId → ContractAddress → Except String (Option ClassHash) :=
  fun _ _ => Except.ok (some 99)

def cchNone : StorageBlockId → ContractAddress → Except String (Option ClassHash) :=
  fun _ _ => Except.ok none

def cdefSome : ClassHash → Except String (Option DefinitionBytes) :=
  fun _ => Except.ok (some [1])

def cdefNone : ClassHash → Except String (Option DefinitionBytes) :=
  fun _ => Except.ok none

def parseOk : DefinitionBytes → Except String ContractClass :=
  fun _ => Except.ok ⟨7⟩

/-- A pending snapshot deploying address `1` with class hash `5`. -/
def pdW : Option PendingData := some ⟨some ⟨⟨[⟨1, 5⟩]⟩⟩⟩

/-- C1: the pending overlay is consulted exactly for `Pending` requests
(the result is independent of the pending data otherwise), and an
overlay hit makes the result independent of the committed class-hash
lookup and routes the overlay's hash into the definition fetch. -/
theorem get_class_at_pending_overlay
    (conn : Except String Unit)
    (be : StorageBlockId → Except String Bool)
    (cch cch' : StorageBlockId → ContractAddress → Except String (Option ClassHash))
    (cdef : ClassHash → Except String (Option DefinitionBytes))
    (p : DefinitionBytes → Except String ContractClass)
    (pd pd' : Option PendingData)
    (input : GetClassAtInput) (h : ClassHash) :
    (input.block_id ≠ BlockId.Pending →
      get_class_at ⟨conn, be, cch, cdef, p, pd⟩ input =
        get_class_at ⟨conn, be, cch, cdef, p, pd'⟩ input) ∧
    (input.block_id = BlockId.Pending →
      get_pending_class_hash pd input.contract_address = some h →
      get_class_at ⟨conn, be, cch, cdef, p, pd⟩ input =
        get_class_at ⟨conn, be, cch', cdef, p, pd⟩ input) ∧
    (input.block_id = BlockId.Pending →
      get_pending_class_hash pd input.contract_address = some h →
      conn = Except.ok () →
      be StorageBlockId.Latest = Except.ok true →
      get_class_at ⟨conn, be, cch, cdef, p, pd⟩ input = fetchAndParse cdef p h) := by
  refine ⟨?_, ?_, ?_⟩
  · intro hne
    simp only [get_class_at, pendingClassHashFor, if_neg hne]
  · intro hp hov
    simp only [get_class_at, pendingClassHashFor, hp, eq_self_iff_true, ite_true, hov]
  · intro hp hov hconn hbe
    simp only [get_class_at, pendingClassHashFor, hp, eq_self_iff_true, ite_true,
      hov, hconn, resolveBlockId, hbe]

/-- Witness for C1: concrete non-`Pending` request unaffected by the
overlay; concrete `Pending` request with an overlay hit unaffected by the
committed lookup and resolved through the overlay's hash `5`. -/
theorem get_class_at_pending_overlay_witness :
    (get_class_at ⟨Except.ok (), beTrue, cchSome, cdefSome, parseOk, pdW⟩
        ⟨BlockId.Latest, 1⟩ =
      get_class_at ⟨Except.ok (), beTrue, cchSome, cdefSome, parseOk, none⟩
        ⟨BlockId.Latest, 1⟩) ∧
    (get_class_at ⟨Except.ok (), beTrue, cchSome, cdefSome, parseOk, pdW⟩
        ⟨BlockId.Pending, 1⟩ =
      get_class_at ⟨Except.ok (), beTrue, cchNone, cdefSome, parseOk, pdW⟩
        ⟨BlockId.Pending, 1⟩) ∧
    (get_class_at ⟨Except.ok (), beTrue, cchSome, cdefSome, parseOk, pdW⟩
        ⟨BlockId.Pending, 1⟩ = fetchAndParse cdefSome parseOk 5) :=
  ⟨(get_class_at_pending_overlay (Except.ok ()) beTrue cchSome cchSome cdefSome
      parseOk pdW none ⟨BlockId.Latest, 1⟩ 5).1 (by decide),
   (get_class_at_pending_overlay (Except.ok ()) beTrue cchSome cchNone cdefSome
      parseOk pdW pdW ⟨BlockId.Pending, 1⟩ 5).2.1 rfl rfl,
   (get_class_at_pending_overlay (Except.ok ()) beTrue cchSome cchNone cdefSome
      parseOk pdW pdW ⟨BlockId.Pending, 1⟩ 5).2.2 rfl rfl rfl rfl⟩

/-- C3: a class hash obtained from the overlay or from committed storage
whose definition bytes are absent yields `Internal`, never
`ContractNotFound`. -/
theorem class_definition_missing_internal
    (env : StorageEnv) (input : GetClassAtInput) (h : ClassHash)
    (hconn : env.connection = Except.ok ())
    (hex : env.block_exists (resolveBlockId input.block_id) = Except.ok true)
    (hhash : pendingClassHashFor env input = some h ∨
      (pendingClassHashFor env input = none ∧
        env.contract_class_hash (resolveBlockId input.block_id)
          input.contract_address = Except.ok (some h)))
    (hdef : env.class_definition h = Except.ok none) :
    get_class_at env input =
      Except.error
        (GetClassAtError.Internal "Class definition missing from database") ∧
    get_class_at env input ≠ Except.error GetClassAtError.ContractNotFound := by
  have h1 : get_class_at env input =
      Except.error
        (GetClassAtError.Internal "Class definition missing from database") := by
    rcases hhash with hp | ⟨hp, hc⟩
    · simp only [get_class_at, hconn, hex, hp, fetchAndParse, hdef]
    · simp only [get_class_at, hconn, hex, hp, hc, fetchAndParse, hdef]
  refine ⟨h1, ?_⟩
  rw [h1]
  intro hcontra
  exact GetClassAtError.noConfusion (Except.error.inj hcontra)

/-- Witness for C3: pending overlay hit at address `1` with hash `5`,
definition bytes for `5` absent. -/
theorem class_definition_missing_internal_witness :
    get_class_at ⟨Except.ok (), beTrue, cchNone, cdefNone, parseOk, pdW⟩
        ⟨BlockId.Pending, 1⟩ =
      Except.error
        (GetClassAtError.Internal "Class definition missing from database") ∧
    get_class_at ⟨Except.ok (), beTrue, cchNone, cdefNone, parseOk, pdW⟩
        ⟨BlockId.Pending, 1⟩ ≠
      Except.error GetClassAtError.ContractNotFound :=
  class_definition_missing_internal
    ⟨Except.ok (), beTrue, cchNone, cdefNone, parseOk, pdW⟩
    ⟨BlockId.Pending, 1⟩ 5 rfl rfl (Or.inl rfl) rfl

/-- C4: a missing target block yields `BlockNotFound`, regardless of
what the contract lookup would have returned. -/
theorem block_not_found_precedence
    (env : StorageEnv) (input : GetClassAtInput)
    (hconn : env.connection = Except.ok ())
    (hex : env.block_exists (resolveBlockId input.block_id) = Except.ok false) :
    get_class_at env input = Except.error GetClassAtError.BlockNotFound := by
  simp only [get_class_at, hconn, hex]

/-- Witness for C4: block number `1000` is beyond the chain head while
the committed lookup would find the contract (it returns `some 99`). -/
theorem block_not_found_precedence_witness :
    get_class_at ⟨Except.ok (), beFalse, cchSome, cdefSome, parseOk, none⟩
        ⟨BlockId.Number 1000, 1⟩ =
      Except.error GetClassAtError.BlockNotFound :=
  block_not_found_precedence
    ⟨Except.ok (), beFalse, cchSome, cdefSome, parseOk, none⟩
    ⟨BlockId.Number 1000, 1⟩ rfl rfl

/-- C10: for a `Pending` request the block-existence check against
committed storage (at `Latest`) still runs even when the overlay already
produced a class hash; with no committed block the result is
`BlockNotFound` despite the overlay match. -/
theorem pending_block_check_still_applies
    (env : StorageEnv) (input : GetClassAtInput) (h : ClassHash)
    (hp : input.block_id = BlockId.Pending)
    (_hov : get_pending_class_hash env.pending_data input.contract_address = some h)
    (hconn : env.connection = Except.ok ())
    (hex : env.block_exists StorageBlockId.Latest = Except.ok false) :
    get_class_at env input = Except.error GetClassAtError.BlockNotFound := by
  simp only [get_class_at, hconn, hp, resolveBlockId, hex]

/-- Witness for C10: overlay deploys address `1` with hash `5`, yet
storage has no block. -/
theorem pending_block_check_still_applies_witness :
    get_class_at ⟨Except.ok (), beFalse, cchSome, cdefSome, parseOk, pdW⟩
        ⟨BlockId.Pending, 1⟩ =
      Except.error GetClassAtError.BlockNotFound :=
  pending_block_check_still_applies
    ⟨Except.ok (), beFalse, cchSome, cdefSome, parseOk, pdW⟩
    ⟨BlockId.Pending, 1⟩ 5 rfl rfl rfl rfl

/-! Fixtures for the declare-transaction pipeline. -/

def convertOk : ContractClass → Except String ContractDefinition :=
  fun _ => Except.ok ⟨3⟩

def convertErr : ContractClass → Except String ContractDefinition :=
  fun _ => Except.error "bad"

def submitInvalidProgram : AddDeclareArgs → Except SequencerError AddDeclareResponse :=
  fun _ =>
    Except.error
      (SequencerError.starknetError ⟨StarknetErrorCode.InvalidProgram, "m"⟩)

/-- Gateway fixture that accepts the submission only when the
compiled-class-hash slot is absent. -/
def submitOkIfNoCompiledHash :
    AddDeclareArgs → Except SequencerError AddDeclareResponse :=
  fun a =>
    if a.compiled_class_hash = none then Except.ok ⟨5, 6⟩
    else Except.error SequencerError.invalidStarknetErrorVariant

def declareTxW : BroadcastedDeclareTransaction := ⟨0, 1, [2], 3, ⟨4⟩, 5⟩

def declareInputW : AddDeclareTransactionInput := ⟨Transaction.Declare declareTxW⟩

def declareErrW : SequencerError :=
  SequencerError.starknetError ⟨StarknetErrorCode.InvalidProgram, "m"⟩

/-- C2: a gateway error maps through `fromSequencerError`; the result is
`InvalidContractClass` exactly for the tagged starknet-error case with
code `InvalidProgram`, and `Internal` preserving the original cause for
every other gateway error. -/
theorem declare_gateway_error_mapping
    (env : SequencerEnv) (input : AddDeclareTransactionInput)
    (tx : BroadcastedDeclareTransaction) (cd : ContractDefinition)
    (e : SequencerError)
    (htx : input.declare_transaction = Transaction.Declare tx)
    (hconv : env.convert tx.contract_class = Except.ok cd)
    (hsub : env.submit ⟨tx.version, tx.max_fee, tx.signature, tx.nonce, cd,
        tx.sender_address, none⟩ = Except.error e) :
    add_declare_transaction env input =
      Except.error (AddDeclareTransactionError.fromSequencerError e) ∧
    (AddDeclareTransactionError.fromSequencerError e =
        AddDeclareTransactionError.InvalidContractClass ↔
      ∃ se, e = SequencerError.starknetError se ∧
        se.code = StarknetErrorCode.InvalidProgram) ∧
    (AddDeclareTransactionError.fromSequencerError e ≠
        AddDeclareTransactionError.InvalidContractClass →
      AddDeclareTransactionError.fromSequencerError e =
        AddDeclareTransactionError.Internal (DeclareInternalCause.sequencer e)) := by
  refine ⟨?_, ?_, ?_⟩
  · simp only [add_declare_transaction, htx, hconv, hsub]
  · constructor
    · intro hic
      cases e with
      | starknetError se =>
        by_cases hcode : se.code = StarknetErrorCode.InvalidProgram
        · exact ⟨se, rfl, hcode⟩
        · simp [AddDeclareTransactionError.fromSequencerError, hcode] at hic
      | transportError msg =>
        simp [AddDeclareTransactionError.fromSequencerError] at hic
      | invalidStarknetErrorVariant =>
        simp [AddDeclareTransactionError.fromSequencerError] at hic
    · rintro ⟨se, rfl, hcode⟩
      simp [AddDeclareTransactionError.fromSequencerError, hcode]
  · intro hne
    cases e with
    | starknetError se =>
      by_cases hcode : se.code = StarknetErrorCode.InvalidProgram
      · exact absurd
          (by simp [AddDeclareTransactionError.fromSequencerError, hcode]) hne
      · simp [AddDeclareTransactionError.fromSequencerError, hcode]
    | transportError msg => rfl
    | invalidStarknetErrorVariant => rfl

/-- Witness for C2: gateway rejects with starknet error code
`InvalidProgram`. -/
theorem declare_gateway_error_mapping_witness :
    add_declare_transaction ⟨convertOk, submitInvalidProgram⟩ declareInputW =
      Except.error (AddDeclareTransactionError.fromSequencerError declareErrW) ∧
    (AddDeclareTransactionError.fromSequencerError declareErrW =
        AddDeclareTransactionError.InvalidContractClass ↔
      ∃ se, declareErrW = SequencerError.starknetError se ∧
        se.code = StarknetErrorCode.InvalidProgram) ∧
    (AddDeclareTransactionError.fromSequencerError declareErrW ≠
        AddDeclareTransactionError.InvalidContractClass →
      AddDeclareTransactionError.fromSequencerError declareErrW =
        AddDeclareTransactionError.Internal
          (DeclareInternalCause.sequencer declareErrW)) :=
  declare_gateway_error_mapping ⟨convertOk, submitInvalidProgram⟩
    declareInputW declareTxW ⟨3⟩ declareErrW rfl rfl rfl

/-- C6: a local conversion failure of the contract class yields
`Internal` with conversion context, never `InvalidContractClass`. -/
theorem declare_conversion_failure_internal
    (env : SequencerEnv) (input : AddDeclareTransactionInput)
    (tx : BroadcastedDeclareTransaction) (msg : String)
    (htx : input.declare_transaction = Transaction.Declare tx)
    (hconv : env.convert tx.contract_class = Except.error msg) :
    add_declare_transaction env input =
      Except.error
        (AddDeclareTransactionError.Internal
          (DeclareInternalCause.localError
            ("Failed to convert contract definition: " ++ msg))) ∧
    add_declare_transaction env input ≠
      Except.error AddDeclareTransactionError.InvalidContractClass := by
  have h1 : add_declare_transaction env input =
      Except.error
        (AddDeclareTransactionError.Internal
          (DeclareInternalCause.localError
            ("Failed to convert contract definition: " ++ msg))) := by
    simp only [add_declare_transaction, htx, hconv]
  refine ⟨h1, ?_⟩
  rw [h1]
  intro hcontra
  exact AddDeclareTransactionError.noConfusion (Except.error.inj hcontra)

/-- Witness for C6: the converter rejects the class with cause "bad". -/
theorem declare_conversion_failure_internal_witness :
    add_declare_transaction ⟨convertErr, submitOkIfNoCompiledHash⟩ declareInputW =
      Except.error
        (AddDeclareTransactionError.Internal
          (DeclareInternalCause.localError
            ("Failed to convert contract definition: " ++ "bad"))) ∧
    add_declare_transaction ⟨convertErr, submitOkIfNoCompiledHash⟩ declareInputW ≠
      Except.error AddDeclareTransactionError.InvalidContractClass :=
  declare_conversion_failure_internal ⟨convertErr, submitOkIfNoCompiledHash⟩
    declareInputW declareTxW "bad" rfl rfl

/-- C7: an accepted submission forwards version, max fee, signature,
nonce, converted definition and sender address with `none` in the
compiled-class-hash slot, and returns exactly the response's transaction
hash and class hash. -/
theorem declare_success_forwarding
    (env : SequencerEnv) (input : AddDeclareTransactionInput)
    (tx : BroadcastedDeclareTransaction) (cd : ContractDefinition)
    (resp : AddDeclareResponse)
    (htx : input.declare_transaction = Transaction.Declare tx)
    (hconv : env.convert tx.contract_class = Except.ok cd)
    (hsub : env.submit ⟨tx.version, tx.max_fee, tx.signature, tx.nonce, cd,
        tx.sender_address, none⟩ = Except.ok resp) :
    add_declare_transaction env input =
      Except.ok ⟨resp.transaction_hash, resp.class_hash⟩ := by
  simp only [add_declare_transaction, htx, hconv, hsub]

/-- Witness for C7: the gateway fixture succeeds only when the
compiled-class-hash slot is `none`, so the successful outcome shows the
slot was passed as absent. -/
theorem declare_success_forwarding_witness :
    add_declare_transaction ⟨convertOk, submitOkIfNoCompiledHash⟩ declareInputW =
      Except.ok ⟨5, 6⟩ :=
  declare_success_forwarding ⟨convertOk, submitOkIfNoCompiledHash⟩
    declareInputW declareTxW ⟨3⟩ ⟨5, 6⟩ rfl rfl rfl

/-- C5: each method's error type is a closed subset of the taxonomy plus
`Internal`: every error of `get_class_at` is `BlockNotFound`,
`ContractNotFound` or `Internal`, and every error of
`add_declare_transaction` is `InvalidContractClass` or `Internal`. -/
theorem method_error_kinds_closed :
    (∀ (env : StorageEnv) (input : GetClassAtInput) (e : GetClassAtError),
      get_class_at env input = Except.error e →
        e = GetClassAtError.BlockNotFound ∨
        e = GetClassAtError.ContractNotFound ∨
        ∃ c, e = GetClassAtError.Internal c) ∧
    (∀ (env : SequencerEnv) (input : AddDeclareTransactionInput)
        (e : AddDeclareTransactionError),
      add_declare_transaction env input = Except.error e →
        e = AddDeclareTransactionError.InvalidContractClass ∨
        ∃ c, e = AddDeclareTransactionError.Internal c) := by
  constructor
  · intro env input e _
    cases e with
    | BlockNotFound => exact Or.inl rfl
    | ContractNotFound => exact Or.inr (Or.inl rfl)
    | Internal c => exact Or.inr (Or.inr ⟨c, rfl⟩)
  · intro env input e _
    cases e with
    | InvalidContractClass => exact Or.inl rfl
    | Internal c => exact Or.inr ⟨c, rfl⟩

/-- Witness for C5: a failed connection makes `get_class_at` return an
`Internal` error, and a failed conversion makes `add_declare_transaction`
return an `Internal` error; both lie in their declared subsets. -/
theorem method_error_kinds_closed_witness :
    (GetClassAtError.Internal ("Opening database connection: " ++ "io") =
        GetClassAtError.BlockNotFound ∨
      GetClassAtError.Internal ("Opening database connection: " ++ "io") =
        GetClassAtError.ContractNotFound ∨
      ∃ c, GetClassAtError.Internal ("Opening database connection: " ++ "io") =
        GetClassAtError.Internal c) ∧
    (AddDeclareTransactionError.Internal
        (DeclareInternalCause.localError
          ("Failed to convert contract definition: " ++ "bad")) =
        AddDeclareTransactionError.InvalidContractClass ∨
      ∃ c, AddDeclareTransactionError.Internal
        (DeclareInternalCause.localError
          ("Failed to convert contract definition: " ++ "bad")) =
        AddDeclareTransactionError.Internal c) :=
  ⟨method_error_kinds_closed.1
      ⟨Except.error "io", beTrue, cchNone, cdefNone, parseOk, none⟩
      ⟨BlockId.Latest, 1⟩
      (GetClassAtError.Internal ("Opening database connection: " ++ "io")) rfl,
   method_error_kinds_closed.2 ⟨convertErr, submitOkIfNoCompiledHash⟩
      declareInputW
      (AddDeclareTransactionError.Internal
        (DeclareInternalCause.localError
          ("Failed to convert contract definition: " ++ "bad"))) rfl⟩

/-- Scanning an appended list skips a prefix containing no matching
address. -/
theorem findDeployedClassHash_append (l₁ l₂ : List DeployedContract)
    (address : ContractAddress) (hno : ∀ c ∈ l₁, c.address ≠ address) :
    findDeployedClassHash (l₁ ++ l₂) address = findDeployedClassHash l₂ address := by
  induction l₁ with
  | nil => rfl
  | cons c rest ih =>
    have hc : c.address ≠ address := hno c (List.mem_cons_self c rest)
    simp only [List.cons_append, findDeployedClassHash, if_neg hc]
    exact ih fun d hd => hno d (List.mem_cons_of_mem c hd)

/-- Scanning a list with no matching address yields nothing. -/
theorem findDeployedClassHash_eq_none (l : List DeployedContract)
    (address : ContractAddress) (hno : ∀ c ∈ l, c.address ≠ address) :
    findDeployedClassHash l address = none := by
  induction l with
  | nil => rfl
  | cons c rest ih =>
    simp only [findDeployedClassHash, if_neg (hno c (List.mem_cons_self c rest))]
    exact ih fun d hd => hno d (List.mem_cons_of_mem c hd)

/-- C9: the overlay lookup scans `deployed_contracts` in insertion order
and returns the class hash of the first entry matching the queried
address (first occurrence wins under duplicates), `none` when no entry
matches or no pending data exists. -/
theorem pending_overlay_first_match
    (p : PendingData) (su : StateUpdate) (address : ContractAddress) :
    (∀ (l₁ : List DeployedContract) (h : ClassHash) (l₂ : List DeployedContract),
      p.state_update = some su →
      su.state_diff.deployed_contracts = l₁ ++ DeployedContract.mk address h :: l₂ →
      (∀ c ∈ l₁, c.address ≠ address) →
      get_pending_class_hash (some p) address = some h) ∧
    (p.state_update = some su →
      (∀ c ∈ su.state_diff.deployed_contracts, c.address ≠ address) →
      get_pending_class_hash (some p) address = none) ∧
    get_pending_class_hash none address = none := by
  refine ⟨?_, ?_, rfl⟩
  · intro l₁ h l₂ hsu hdc hno
    simp only [get_pending_class_hash, hsu, hdc]
    rw [findDeployedClassHash_append l₁ _ address hno]
    simp [findDeployedClassHash]
  · intro hsu hno
    simp only [get_pending_class_hash, hsu]
    exact findDeployedClassHash_eq_none _ address hno

/-- A pending snapshot with a duplicate address `1`: entries
`(1, 10), (2, 20), (1, 30)` in insertion order. -/
def suDup : StateUpdate := ⟨⟨[⟨1, 10⟩, ⟨2, 20⟩, ⟨1, 30⟩]⟩⟩

def pdDup : PendingData := ⟨some suDup⟩

/-- Witness for C9: under the duplicate address `1` the first
occurrence's hash `10` is returned; the unmatched address `3` yields
`none`. -/
theorem pending_overlay_first_match_witness :
    get_pending_class_hash (some pdDup) 1 = some 10 ∧
    get_pending_class_hash (some pdDup) 3 = none :=
  ⟨(pending_overlay_first_match pdDup suDup 1).1 [] 10 [⟨2, 20⟩, ⟨1, 30⟩]
      rfl rfl (by decide),
   (pending_overlay_first_match pdDup suDup 3).2.1 rfl (by decide)⟩

end Pathfinder
